import Mathlib

/-!
Verification of the resume-analysis core (Scoring Engine + Analysis
Orchestrator) of the `resume_creator` repository, shallowly embedded from
`src/utils/scoring_engine.py` and `src/utils/resume_analyzer.py`.

The Completion Capability (the OpenAI client from
`src/utils/openai_client.py`) is modelled as a black box: each call either
raises (carrying an error message) or returns a raw text completion.  The
Python code parses such texts with `json.loads`; we model JSON values and a
parser for them below.  Python numeric values are modelled as rationals,
so `round(x, 1)` is modelled as exact decimal rounding (half-to-even, the
rule Python's `round` implements); the int/float distinction of Python
number formatting is abstracted by `fmtScore`.
-/

namespace ResumeCreator

/-- JSON values as produced by Python's `json.loads`: null, booleans,
numbers (modelled as rationals), strings, arrays and objects (association
lists with unique keys, in first-occurrence order, as Python dicts are). -/
inductive Json where
  | null : Json
  | bool : Bool → Json
  | num : ℚ → Json
  | str : String → Json
  | arr : List Json → Json
  | obj : List (String × Json) → Json
deriving Repr

/-- Opening-brace character, written by code point to keep braces out of
character literals. -/
def lbrace : Char := Char.ofNat 123

/-- Closing-brace character. -/
def rbrace : Char := Char.ofNat 125

/-- Drop leading JSON whitespace. -/
def skipWs : List Char → List Char
  | [] => []
  | c :: cs =>
    if c = ' ' ∨ c = '\n' ∨ c = '\t' ∨ c = '\r' then skipWs cs else c :: cs

/-- Digit run at the front of a character list, and the remainder. -/
def takeDigits (cs : List Char) : List Char × List Char :=
  (cs.takeWhile Char.isDigit, cs.dropWhile Char.isDigit)

/-- Value of a digit run read in base 10. -/
def digitsToNat (ds : List Char) : Nat :=
  ds.foldl (fun n c => 10 * n + (c.toNat - 48)) 0

/-- Parse a JSON number (optional minus, integer part, optional fractional
part).  Exponent notation is not modelled; a text using it fails to parse,
which the embedding treats like any other `json.loads` failure. -/
def parseNumber (cs : List Char) : Option (ℚ × List Char) :=
  let signed : Bool × List Char :=
    match cs with
    | c :: rest => if c = '-' then (true, rest) else (false, cs)
    | [] => (false, [])
  let ip := takeDigits signed.2
  if ip.1.isEmpty then none
  else
    match ip.2 with
    | c :: rest =>
      if c = '.' then
        let fp := takeDigits rest
        if fp.1.isEmpty then none
        else
          let q : ℚ :=
            (digitsToNat ip.1 : ℚ) + (digitsToNat fp.1 : ℚ) / ((10 : ℚ) ^ fp.1.length)
          some (if signed.1 then -q else q, fp.2)
      else some (if signed.1 then -(digitsToNat ip.1 : ℚ) else (digitsToNat ip.1 : ℚ), ip.2)
    | [] => some (if signed.1 then -(digitsToNat ip.1 : ℚ) else (digitsToNat ip.1 : ℚ), [])

/-- Translate a JSON string escape character. -/
def escChar (c : Char) : Option Char :=
  if c = '"' then some '"'
  else if c = '\\' then some '\\'
  else if c = '/' then some '/'
  else if c = 'n' then some '\n'
  else if c = 't' then some '\t'
  else if c = 'r' then some '\r'
  else if c = 'b' then some (Char.ofNat 8)
  else if c = 'f' then some (Char.ofNat 12)
  else none

/-- Parse the remainder of a JSON string after the opening quote, returning
its contents and the remainder of the input. -/
def parseJStr : List Char → Option (String × List Char)
  | [] => none
  | c :: cs =>
    if c = '"' then some ("", cs)
    else if c = '\\' then
      match cs with
      | [] => none
      | e :: cs2 =>
        match escChar e with
        | none => none
        | some ch => (parseJStr cs2).map fun p => (String.singleton ch ++ p.1, p.2)
    else (parseJStr cs).map fun p => (String.singleton c ++ p.1, p.2)

/-- Consume the literal characters `p` from the front of `cs`. -/
def dropLit : List Char → List Char → Option (List Char)
  | [], cs => some cs
  | _ :: _, [] => none
  | p :: ps, c :: cs => if c = p then dropLit ps cs else none

/-- Insert a key into an object the way Python dicts do on duplicate keys:
later values overwrite, the key keeps its first position. -/
def objUpsert (fs : List (String × Json)) (k : String) (v : Json) :
    List (String × Json) :=
  if fs.any (fun p => p.1 = k) then
    fs.map fun p => if p.1 = k then (k, v) else p
  else fs ++ [(k, v)]

mutual

/-- Parse one JSON value (fuel-indexed recursion). -/
def parseVal : Nat → List Char → Option (Json × List Char)
  | 0, _ => none
  | fuel + 1, cs =>
    match skipWs cs with
    | [] => none
    | c :: rest =>
      if c = '"' then (parseJStr rest).map fun p => (Json.str p.1, p.2)
      else if c = lbrace then parseObjItems fuel rest
      else if c = '[' then parseArrItems fuel rest
      else if c = 't' then (dropLit ['r', 'u', 'e'] rest).map fun r => (Json.bool true, r)
      else if c = 'f' then
        (dropLit ['a', 'l', 's', 'e'] rest).map fun r => (Json.bool false, r)
      else if c = 'n' then (dropLit ['u', 'l', 'l'] rest).map fun r => (Json.null, r)
      else if c = '-' ∨ c.isDigit then
        (parseNumber (c :: rest)).map fun p => (Json.num p.1, p.2)
      else none

/-- Parse array items after `[`, allowing an immediately empty array. -/
def parseArrItems : Nat → List Char → Option (Json × List Char)
  | 0, _ => none
  | fuel + 1, cs =>
    match skipWs cs with
    | [] => none
    | c :: rest =>
      if c = ']' then some (Json.arr [], rest)
      else parseArrLoop fuel [] (c :: rest)

/-- Parse one array item then either a comma (more items) or `]`. -/
def parseArrLoop : Nat → List Json → List Char → Option (Json × List Char)
  | 0, _, _ => none
  | fuel + 1, acc, cs =>
    match parseVal fuel cs with
    | none => none
    | some (v, cs2) =>
      match skipWs cs2 with
      | [] => none
      | c :: rest =>
        if c = ',' then parseArrLoop fuel (acc ++ [v]) rest
        else if c = ']' then some (Json.arr (acc ++ [v]), rest)
        else none

/-- Parse object items after the opening brace, allowing an immediately
empty object. -/
def parseObjItems : Nat → List Char → Option (Json × List Char)
  | 0, _ => none
  | fuel + 1, cs =>
    match skipWs cs with
    | [] => none
    | c :: rest =>
      if c = rbrace then some (Json.obj [], rest)
      else parseObjLoop fuel [] (c :: rest)

/-- Parse one `"key": value` pair then either a comma or the closing
brace. -/
def parseObjLoop : Nat → List (String × Json) → List Char → Option (Json × List Char)
  | 0, _, _ => none
  | fuel + 1, acc, cs =>
    match skipWs cs with
    | [] => none
    | c :: rest =>
      if c = '"' then
        match parseJStr rest with
        | none => none
        | some (k, cs2) =>
          match skipWs cs2 with
          | [] => none
          | c2 :: cs3 =>
            if c2 = ':' then
              match parseVal fuel cs3 with
              | none => none
              | some (v, cs4) =>
                let acc2 := objUpsert acc k v
                match skipWs cs4 with
                | [] => none
                | c3 :: cs5 =>
                  if c3 = ',' then parseObjLoop fuel acc2 cs5
                  else if c3 = rbrace then some (Json.obj acc2, cs5)
                  else none
            else none
      else none

end

/-- Model of Python's `json.loads`: parse a full JSON document, requiring
the whole input (up to trailing whitespace) to be consumed; `none` models
a raised `json.JSONDecodeError`. -/
def json_loads (s : String) : Option Json :=
  match parseVal (4 * s.data.length + 4) s.data with
  | some (v, rest) => if (skipWs rest).isEmpty then some v else none
  | none => none

/-! ## Python value semantics used by the embedded code -/

/-- Dictionary lookup `fs[k]` / `fs.get(k)`; keys are unique (parser
upserts duplicates), so first match is the Python value. -/
def pyGet (fs : List (String × Json)) (k : String) : Option Json :=
  (fs.find? fun p => p.1 = k).map fun p => p.2

/-- Python truthiness of a JSON-shaped value. -/
def pyTruthy : Json → Bool
  | Json.null => false
  | Json.bool b => b
  | Json.num q => q ≠ 0
  | Json.str s => ¬s.isEmpty
  | Json.arr xs => ¬xs.isEmpty
  | Json.obj fs => ¬fs.isEmpty

/-- Whether Python's `len(v)` succeeds (strings, lists and dicts have a
length; numbers, booleans and `None` raise `TypeError`). -/
def pyLenOk : Json → Bool
  | Json.str _ => true
  | Json.arr _ => true
  | Json.obj _ => true
  | _ => false

/-- Whether Python slicing `v[:n]` succeeds (sequences only; dicts raise
on slice keys, as do numbers, booleans and `None`). -/
def pySliceOk : Json → Bool
  | Json.str _ => true
  | Json.arr _ => true
  | _ => false

/-- Result of Python `v[0]`, when it succeeds: the head of a non-empty
list, or the first character of a non-empty string.  Dicts raise
`KeyError` (JSON object keys are strings, never the integer `0`), numbers
and booleans raise `TypeError`, and `v[0]` on empty sequences raises
`IndexError`. -/
def pyIndex0 : Json → Option Json
  | Json.arr (x :: _) => some x
  | Json.str s =>
    match s.data with
    | c :: _ => some (Json.str (String.singleton c))
    | [] => none
  | _ => none

/-- Whether a JSON value is a string. -/
def isStrB : Json → Bool
  | Json.str _ => true
  | _ => false

/-- Whether a JSON value is an object (Python dict). -/
def isObjB : Json → Bool
  | Json.obj _ => true
  | _ => false

/-- Numeric value Python arithmetic/comparison sees: numbers are
themselves, booleans coerce to 1/0 (`bool` is an `int` subclass, so
`max(0, min(100, True))` succeeds); anything else raises `TypeError`
when compared against a number. -/
def scoreVal : Json → Option ℚ
  | Json.num q => some q
  | Json.bool b => some (if b then 1 else 0)
  | _ => none

/-- Python number formatting, modelled exactly for the integral values the
code and theorems exercise; non-integral rationals are shown as
`num/den` (an abstraction of Python float `repr`). -/
def fmtScore (q : ℚ) : String :=
  if q.den = 1 then toString q.num else toString q.num ++ "/" ++ toString q.den

/-- Rendering a JSON value inside an f-string, modelled exactly for the
string values the code and theorems exercise. -/
def fmtJson : Json → String
  | Json.str s => s
  | Json.num q => fmtScore q
  | Json.bool b => if b then "True" else "False"
  | Json.null => "None"
  | Json.arr _ => "<list>"
  | Json.obj _ => "<dict>"

/-- Round half to even, the tie-breaking rule of Python's `round`. -/
def roundHalfEven (q : ℚ) : ℤ :=
  if q - (⌊q⌋ : ℚ) < 1 / 2 then ⌊q⌋
  else if 1 / 2 < q - (⌊q⌋ : ℚ) then ⌊q⌋ + 1
  else if 2 ∣ ⌊q⌋ then ⌊q⌋ else ⌊q⌋ + 1

/-- Model of Python's `round(x, 1)` on exact rationals. -/
def pyRound1 (q : ℚ) : ℚ := (roundHalfEven (10 * q) : ℚ) / 10

/-! ## Completion Capability -/

/-- One Completion Capability invocation, seen by a caller of
`OpenAIClient.chat_completion` / `structured_completion`: either the call
raises (network/provider/auth failure, or a `None` completion, with
`str(e)` carried as the message) or it returns the completion text. -/
inductive CapResponse where
  | err : String → CapResponse
  | ok : String → CapResponse

/-- Whether a capability invocation failed. -/
def CapResponse.isErr : CapResponse → Bool
  | CapResponse.err _ => true
  | CapResponse.ok _ => false

/-! ## Scoring Engine (`src/utils/scoring_engine.py`) -/

/-- The 9 fixed evaluation dimensions (`ScoringEngine.DIMENSIONS`). -/
def DIMENSIONS : List String :=
  ["Relevance of Experience",
   "Impact and Achievements",
   "Technical Proficiency",
   "Clarity and Structure",
   "Quantifiable Results",
   "Communication and Writing Quality",
   "Growth and Progression",
   "Innovation and Problem-Solving",
   "ATS Compatibility"]

/-- The fixed weight table (`ScoringEngine.DIMENSION_WEIGHTS`), as the
constant dict literal of the source. -/
def DIMENSION_WEIGHTS_LIST : List (String × ℚ) :=
  [("Relevance of Experience", 0.20),
   ("Impact and Achievements", 0.15),
   ("Technical Proficiency", 0.15),
   ("Clarity and Structure", 0.10),
   ("Quantifiable Results", 0.10),
   ("Communication and Writing Quality", 0.08),
   ("Growth and Progression", 0.08),
   ("Innovation and Problem-Solving", 0.09),
   ("ATS Compatibility", 0.05)]

/-- Weight lookup `DIMENSION_WEIGHTS[dim]` (the code only looks up the 9
fixed names; 0 elsewhere mirrors `DIMENSION_WEIGHTS.get(dimension, 0)`). -/
def DIMENSION_WEIGHTS (d : String) : ℚ :=
  ((DIMENSION_WEIGHTS_LIST.find? fun p => p.1 = d).map fun p => p.2).getD 0

/-- One dimension's evaluation as returned by
`ScoringEngine.evaluate_dimension`: the `score`, `analysis` and
`recommendations` entries of the returned dict.  (A well-formed capability
response may carry further keys; nothing in the repository ever reads
them, so the model keeps only these three.) -/
structure DimResult where
  score : ℚ
  analysis : Json
  recommendations : Json
deriving Repr

/-- The degraded `DimensionResult` built in `evaluate_dimension`'s
`except` handler, with `m` standing for `str(e)`. -/
def degradedResult (m : String) : DimResult :=
  { score := 0
    analysis := Json.str ("Error evaluating this dimension: " ++ m)
    recommendations :=
      Json.arr [Json.str "Unable to generate recommendations due to an error."] }

/-- Model message for a raised `json.JSONDecodeError` (its exact wording,
which embeds an input position, is abstracted). -/
def jsonErrorMsg : String := "Expecting value"

/-- Model message for the `TypeError` raised when a parsed response is not
a dict, so that `key in result` or the subsequent `result[key]` string
indexing fails. -/
def structureTypeErrorMsg : String := "argument of type is not iterable"

/-- Model message for the `TypeError` raised by
`max(0, min(100, result[\x22score\x22]))` on a non-numeric score. -/
def scoreTypeErrorMsg : String := "not supported between instances"

/-- Model message for the `TypeError` raised while logging, by
`result[\x22analysis\x22][:100]` on an unsliceable value or
`len(result[\x22recommendations\x22])` on an unsized value. -/
def loggingTypeErrorMsg : String := "object is not subscriptable"

/-- Embedding of `ScoringEngine.evaluate_dimension` as a function of the
capability invocation it makes.  Every exception raised inside the `try`
block — capability failure, `json.loads` failure, the explicit
`ValueError` on a missing required field, and the `TypeError`s raised by
the clamp on a non-numeric score or by the logging statements
(`result[\x22analysis\x22][:100]`, `len(result[\x22recommendations\x22])`),
which run before the successful return — is caught by the `except` handler
and converted to `degradedResult`. -/
def evaluate_dimension (resp : CapResponse) : DimResult :=
  match resp with
  | CapResponse.err m => degradedResult m
  | CapResponse.ok raw =>
    match json_loads raw with
    | none => degradedResult jsonErrorMsg
    | some (Json.obj fs) =>
      match pyGet fs "score", pyGet fs "analysis", pyGet fs "recommendations" with
      | some sv, some av, some rv =>
        match scoreVal sv with
        | none => degradedResult scoreTypeErrorMsg
        | some q =>
          if pySliceOk av ∧ pyLenOk rv then
            { score := max 0 (min 100 q), analysis := av, recommendations := rv }
          else degradedResult loggingTypeErrorMsg
      | _, _, _ => degradedResult "Invalid response structure from OpenAI"
    | some _ => degradedResult structureTypeErrorMsg

/-- The aggregate mapping returned by
`ScoringEngine.evaluate_all_dimensions`: the 9 dimension entries plus the
`overall_score` entry (the `dimension_weights` entry is the constant
`DIMENSION_WEIGHTS_LIST`). -/
structure EvalAggregate where
  dims : List (String × DimResult)
  overall_score : ℚ

/-- Embedding of `ScoringEngine.evaluate_all_dimensions` as a function of
the capability invocation made for each dimension name. -/
def evaluate_all_dimensions (caps : String → CapResponse) : EvalAggregate :=
  { dims := DIMENSIONS.map fun d => (d, evaluate_dimension (caps d))
    overall_score :=
      pyRound1
        ((DIMENSIONS.map fun d =>
          (evaluate_dimension (caps d)).score * DIMENSION_WEIGHTS d).sum) }

/-- Insert one weak-dimension entry into an already sorted list, after all
entries of smaller-or-equal score: the stable ascending sort Python's
`list.sort(key=lambda x: x[1])` performs. -/
def insertByScore (x : String × DimResult) :
    List (String × DimResult) → List (String × DimResult)
  | [] => [x]
  | y :: ys =>
    if y.2.score ≤ x.2.score then y :: insertByScore x ys else x :: y :: ys

/-- Stable ascending sort by score of the weak-dimension list. -/
def sortByScore (l : List (String × DimResult)) : List (String × DimResult) :=
  l.foldl (fun acc x => insertByScore x acc) []

/-- The weak dimensions `generate_overall_recommendations` focuses on:
entries of the aggregate whose key is one of the 9 fixed dimension names
(the `overall_score` and `dimension_weights` entries fail this membership
test before their values are ever inspected) with score below 70, sorted
ascending by score, first 3 taken (`min(3, len(weak_dimensions))`).  The
Python code sorts `(dim, score)` pairs and then re-reads
`dimension_results[dim]`; as dict keys are unique this is the same entry,
carried here alongside its name. -/
def selectedWeak (agg : List (String × DimResult)) : List (String × DimResult) :=
  (sortByScore (agg.filter fun p =>
    DIMENSIONS.contains p.1 ∧ p.2.score < 70)).take 3

/-- The three generic suggestions emitted when no weak dimension
contributed a recommendation. -/
def fallbackRecommendations : List String :=
  ["Your resume is strong overall. Continue to tailor it specifically to each job application.",
   "Consider adding more quantifiable achievements and metrics.",
   "Keep your resume updated with your latest skills and accomplishments."]

/-- One loop iteration of `generate_overall_recommendations`: a truthy
recommendations value is indexed at 0 and formatted; a falsy one is
silently skipped; a truthy value that cannot be indexed at 0 (a dict, a
number, `True`) raises, and the method has no handler for it. -/
def emitOne (p : String × DimResult) : Except String (Option String) :=
  if pyTruthy p.2.recommendations then
    match pyIndex0 p.2.recommendations with
    | some r =>
      Except.ok (some ("**" ++ p.1 ++ "** (Score: " ++ fmtScore p.2.score ++ "): "
        ++ fmtJson r))
    | none => Except.error "recommendations value is not indexable at 0"
  else Except.ok none

/-- Run `emitOne` over the selected weak dimensions in order, propagating
the first raised exception. -/
def collectRecs : List (String × DimResult) → Except String (List String)
  | [] => Except.ok []
  | p :: rest =>
    match emitOne p with
    | Except.error e => Except.error e
    | Except.ok none => collectRecs rest
    | Except.ok (some s) => (collectRecs rest).map fun l => s :: l

/-- Embedding of `ScoringEngine.generate_overall_recommendations`, as a
function of the dimension entries of its input aggregate.  `Except.error`
models an exception escaping the method (it has no `try`/`except`). -/
def generate_overall_recommendations (agg : List (String × DimResult)) :
    Except String (List String) :=
  (collectRecs (selectedWeak agg)).map fun recs =>
    if recs.isEmpty then fallbackRecommendations else recs

/-! ## Analysis Orchestrator (`src/utils/resume_analyzer.py`) -/

/-- Whether a JSON value is an array (`isinstance(value, list)`). -/
def isArrB : Json → Bool
  | Json.arr _ => true
  | _ => false

/-- The skills value `extract_overlapping_skills` selects from a parsed
response: a bare array is taken as is; a dict is probed for `skills`, then
`overlapping_skills`, then — as a last resort — its first list-valued
entry in insertion order, defaulting to the empty list when no entry is a
list; any other value has no `.items()`, so the probing raises
`AttributeError` (`none`). -/
def extractSkillsValue : Json → Option Json
  | Json.arr xs => some (Json.arr xs)
  | Json.obj fs =>
    match pyGet fs "skills" with
    | some v => some v
    | none =>
      match pyGet fs "overlapping_skills" with
      | some v => some v
      | none => some (((fs.map fun p => p.2).find? isArrB).getD (Json.arr []))
  | _ => none

/-- Whether the success-path logging of `extract_overlapping_skills` runs
without raising: `len(skills)` must succeed, and — when `skills` is
truthy — so must the eagerly formatted
`f-string` containing `', '.join(skills[:10])`: joining needs a sliceable
value whose first 10 elements are all strings (a string value joins its
own characters; a dict raises on the slice). -/
def skillsLogOk (skills : Json) : Bool :=
  pyLenOk skills &&
    (!pyTruthy skills ||
      match skills with
      | Json.arr xs => (xs.take 10).all isStrB
      | Json.str _ => true
      | _ => false)

/-- Embedding of `ResumeAnalyzer.extract_overlapping_skills` as a function
of its capability invocation.  Every exception inside the `try` — a failed
call, a `json.loads` failure, the `AttributeError` from probing a
non-dict, and the logging `TypeError`s — reaches the `except` handler,
which returns `[]`. -/
def extract_overlapping_skills (resp : CapResponse) : Json :=
  match resp with
  | CapResponse.err _ => Json.arr []
  | CapResponse.ok raw =>
    match json_loads raw with
    | none => Json.arr []
    | some parsed =>
      match extractSkillsValue parsed with
      | none => Json.arr []
      | some skills => if skillsLogOk skills then skills else Json.arr []

/-- Whether the comprehensions and logging of `identify_skill_gaps` accept
the extracted `gaps` value: they iterate it and call `.get` on every
element, so a list needs all-dict elements, and a string or dict iterates
to non-dict elements unless empty; numbers, booleans and `None` are not
iterable at all. -/
def gapsIterOk : Json → Bool
  | Json.arr xs => xs.all isObjB
  | Json.str s => s.isEmpty
  | Json.obj fs => fs.isEmpty
  | _ => false

/-- Embedding of `ResumeAnalyzer.identify_skill_gaps` as a function of its
capability invocation: on success it returns `result.get(\x22gaps\x22, [])`
(requiring a dict result — `.get` on anything else raises), and every
exception inside the `try` is converted to `[]`. -/
def identify_skill_gaps (resp : CapResponse) : Json :=
  match resp with
  | CapResponse.err _ => Json.arr []
  | CapResponse.ok raw =>
    match json_loads raw with
    | none => Json.arr []
    | some (Json.obj fs) =>
      let gaps := (pyGet fs "gaps").getD (Json.arr [])
      if gapsIterOk gaps then gaps else Json.arr []
    | some _ => Json.arr []

/-- Model of Python's `str.strip()`: drop whitespace from both ends. -/
def pyStrip (s : String) : String :=
  String.mk
    (((s.data.dropWhile Char.isWhitespace).reverse.dropWhile
      Char.isWhitespace).reverse)

/-- The fallback sentence of `generate_executive_summary`'s `except`
handler, embedding the overall score. -/
def fallbackSummary (overall_score : ℚ) : String :=
  "This resume shows a " ++ fmtScore overall_score
    ++ "% fit for the target role based on our analysis."

/-- Embedding of `ResumeAnalyzer.generate_executive_summary` as a function
of its capability invocation and the overall score.  Prompt construction
is omitted: it cannot fail on the values this pipeline passes (the skill
gaps produced by `identify_skill_gaps` always survive the pre-`try`
comprehension) and does not influence the modelled response.  On success
the stripped response is returned; on failure, the fallback sentence. -/
def generate_executive_summary (resp : CapResponse) (overall_score : ℚ) : String :=
  match resp with
  | CapResponse.err _ => fallbackSummary overall_score
  | CapResponse.ok raw => pyStrip raw

/-- The capability invocations one `analyze_resume` run makes: one for
skill overlap, one for skill gaps, one per dimension name, one for the
executive summary. -/
structure CapBehavior where
  skills : CapResponse
  gaps : CapResponse
  dims : String → CapResponse
  summary : CapResponse

/-- The analysis dict `analyze_resume` assembles. -/
structure Report where
  overall_score : ℚ
  executive_summary : String
  overlapping_skills : Json
  skill_gaps : Json
  dimensions : List (String × DimResult)
  dimension_weights : List (String × ℚ)
  overall_recommendations : List String

/-- Embedding of `ResumeAnalyzer.analyze_resume` as a function of the
capability invocations of one run.  The five steps run in order; the
`dimensions` field re-reads `dimension_results[dim]` for each fixed
dimension name.  The surrounding `try`/`except` logs and re-`raise`s, so
an exception escaping a step — which, as each sub-step catches its own
capability failures, only `generate_overall_recommendations` can produce —
propagates to the caller (`Except.error`). -/
def analyze_resume (c : CapBehavior) : Except String Report :=
  let overlapping_skills := extract_overlapping_skills c.skills
  let skill_gaps := identify_skill_gaps c.gaps
  let dimension_results := evaluate_all_dimensions c.dims
  match generate_overall_recommendations dimension_results.dims with
  | Except.error e => Except.error e
  | Except.ok overall_recommendations =>
    let executive_summary :=
      generate_executive_summary c.summary dimension_results.overall_score
    Except.ok
      { overall_score := dimension_results.overall_score
        executive_summary := executive_summary
        overlapping_skills := overlapping_skills
        skill_gaps := skill_gaps
        dimensions := DIMENSIONS.map fun d =>
          (d, evaluate_dimension (c.dims d))
        dimension_weights := DIMENSION_WEIGHTS_LIST
        overall_recommendations := overall_recommendations }

/-! ## Concrete capability behaviors and aggregates used as test inputs -/

/-- Loop body of `generate_overall_recommendations` restricted to inputs
on which it does not raise: the recommendation string contributed by one
selected weak dimension, if any. -/
def emitOpt (p : String × DimResult) : Option String :=
  if pyTruthy p.2.recommendations then
    (pyIndex0 p.2.recommendations).map fun r =>
      "**" ++ p.1 ++ "** (Score: " ++ fmtScore p.2.score ++ "): " ++ fmtJson r
  else none

/-- A run in which every Completion Capability invocation fails (systemic
outage). -/
def outageBehavior : CapBehavior :=
  { skills := CapResponse.err "Connection error"
    gaps := CapResponse.err "Connection error"
    dims := fun _ => CapResponse.err "Connection error"
    summary := CapResponse.err "Connection error" }

/-- A well-formed per-dimension response scoring 80. -/
def dimRaw80 : String :=
  "\x7b\"score\": 80, \"analysis\": \"ok\", \"recommendations\": [\"r1\", \"r2\"]\x7d"

/-- A run in which every Completion Capability invocation succeeds with a
well-formed response. -/
def happyBehavior : CapBehavior :=
  { skills := CapResponse.ok "\x7b\"skills\": [\"Python\",\"AWS\"]\x7d"
    gaps := CapResponse.ok "\x7b\"gaps\": []\x7d"
    dims := fun _ => CapResponse.ok dimRaw80
    summary := CapResponse.ok "Strong candidate overall." }

/-- A run whose summary invocation succeeds with an all-whitespace
completion while everything else is well-formed. -/
def blankSummaryBehavior : CapBehavior :=
  { skills := CapResponse.ok "\x7b\"skills\": [\"Python\",\"AWS\"]\x7d"
    gaps := CapResponse.ok "\x7b\"gaps\": []\x7d"
    dims := fun _ => CapResponse.ok dimRaw80
    summary := CapResponse.ok "  " }

/-- Placeholder report used only as the default of `Option.getD` below. -/
def emptyReport : Report :=
  { overall_score := 0
    executive_summary := ""
    overlapping_skills := Json.arr []
    skill_gaps := Json.arr []
    dimensions := []
    dimension_weights := []
    overall_recommendations := [] }

/-- The report the outage run produces. -/
def outageReport : Report :=
  (analyze_resume outageBehavior).toOption.getD emptyReport

/-- The report the fully successful run produces. -/
def happyReport : Report :=
  (analyze_resume happyBehavior).toOption.getD emptyReport

/-- A dimension entry with the given score and recommendations value. -/
def mkDim (score : ℚ) (recs : Json) : DimResult :=
  { score := score, analysis := Json.str "analysis", recommendations := recs }

/-- An aggregate in which exactly one dimension scores below 70 but its
recommendations list is empty, while the remaining eight score 95 with a
non-empty recommendations list. -/
def aggWeakEmptyRecs : List (String × DimResult) :=
  ("Relevance of Experience", mkDim 50 (Json.arr [])) ::
    (DIMENSIONS.drop 1).map fun d =>
      (d, mkDim 95 (Json.arr [Json.str "Add detail."]))

/-- An aggregate in which the one weak dimension carries a truthy dict as
its recommendations value. -/
def aggWeakDictRecs : List (String × DimResult) :=
  ("Relevance of Experience", mkDim 50 (Json.obj [("a", Json.num 1)])) ::
    (DIMENSIONS.drop 1).map fun d =>
      (d, mkDim 95 (Json.arr [Json.str "Add detail."]))

/-- An aggregate with two weak dimensions holding list recommendations,
used to witness the amended recommendation-generation behavior. -/
def aggTwoWeak : List (String × DimResult) :=
  [("Relevance of Experience", mkDim 90 (Json.arr [Json.str "a"])),
   ("Impact and Achievements", mkDim 40 (Json.arr [Json.str "b"])),
   ("Technical Proficiency", mkDim 60 (Json.arr [Json.str "c"])),
   ("ATS Compatibility", mkDim 95 (Json.arr [Json.str "d"]))]

/-- Capability response whose parsed score is 150 with otherwise
schema-conformant fields. -/
def raw150 : String :=
  "\x7b\"score\": 150, \"analysis\": \"Strong.\", \"recommendations\": [\"Keep it up.\"]\x7d"

/-- Capability response whose parsed score is -20 with otherwise
schema-conformant fields. -/
def rawNeg20 : String :=
  "\x7b\"score\": -20, \"analysis\": \"Weak.\", \"recommendations\": [\"Revise.\"]\x7d"

/-- Capability response missing the required `analysis` and
`recommendations` fields. -/
def missingFieldRaw : String := "\x7b\"score\": 42\x7d"

/-- The report produced by a run in which every capability invocation
fails with the given messages (`k` giving each dimension's message). -/
def outageLikeReport (m1 m2 m3 : String) (k : String → String) : Report :=
  (analyze_resume
    { skills := CapResponse.err m1, gaps := CapResponse.err m2,
      dims := fun d => CapResponse.err (k d),
      summary := CapResponse.err m3 }).toOption.getD emptyReport

/-! ## Helper lemmas -/

theorem degradedResult_score (m : String) : (degradedResult m).score = 0 := rfl

theorem evalDim_score_bounds (resp : CapResponse) :
    0 ≤ (evaluate_dimension resp).score ∧ (evaluate_dimension resp).score ≤ 100 := by
  have h0 : ∀ m, 0 ≤ (degradedResult m).score ∧ (degradedResult m).score ≤ 100 := by
    intro m
    constructor <;> norm_num [degradedResult]
  unfold evaluate_dimension
  repeat' split
  all_goals
    first
      | exact h0 _
      | exact ⟨le_max_left 0 _, max_le (by norm_num) (min_le_left _ _)⟩

theorem le_roundHalfEven {q : ℚ} {n : ℤ} (h : (n : ℚ) ≤ q) : n ≤ roundHalfEven q := by
  have hf : n ≤ ⌊q⌋ := Int.le_floor.mpr h
  unfold roundHalfEven
  by_cases h1 : q - (⌊q⌋ : ℚ) < 1 / 2
  · rw [if_pos h1]
    exact hf
  · rw [if_neg h1]
    by_cases h2 : 1 / 2 < q - (⌊q⌋ : ℚ)
    · rw [if_pos h2]
      omega
    · rw [if_neg h2]
      by_cases h3 : 2 ∣ ⌊q⌋
      · rw [if_pos h3]
        exact hf
      · rw [if_neg h3]
        omega

theorem roundHalfEven_le {q : ℚ} {n : ℤ} (h : q ≤ (n : ℚ)) : roundHalfEven q ≤ n := by
  have hf : ⌊q⌋ ≤ n := by
    have h2 := Int.floor_le_floor h
    simpa using h2
  have hf1 : ¬q - (⌊q⌋ : ℚ) < 1 / 2 → ⌊q⌋ + 1 ≤ n := by
    intro hr
    push_neg at hr
    rcases lt_or_eq_of_le hf with h1 | h1
    · omega
    · exfalso
      have h2 : q - (⌊q⌋ : ℚ) ≤ 0 := by
        rw [h1]
        linarith
      linarith
  unfold roundHalfEven
  by_cases h1 : q - (⌊q⌋ : ℚ) < 1 / 2
  · rw [if_pos h1]
    exact hf
  · rw [if_neg h1]
    by_cases h2 : 1 / 2 < q - (⌊q⌋ : ℚ)
    · rw [if_pos h2]
      exact hf1 h1
    · rw [if_neg h2]
      by_cases h3 : 2 ∣ ⌊q⌋
      · rw [if_pos h3]
        exact hf
      · rw [if_neg h3]
        exact hf1 h1

theorem pyRound1_bounds {q : ℚ} (h0 : 0 ≤ q) (h1 : q ≤ 100) :
    0 ≤ pyRound1 q ∧ pyRound1 q ≤ 100 := by
  have hlo : (0 : ℤ) ≤ roundHalfEven (10 * q) := by
    apply le_roundHalfEven
    push_cast
    linarith
  have hhi : roundHalfEven (10 * q) ≤ 1000 := by
    apply roundHalfEven_le
    push_cast
    linarith
  unfold pyRound1
  constructor
  · apply div_nonneg _ (by norm_num)
    exact_mod_cast hlo
  · rw [div_le_iff₀ (by norm_num : (0 : ℚ) < 10)]
    have h2 : ((roundHalfEven (10 * q) : ℤ) : ℚ) ≤ 1000 := by exact_mod_cast hhi
    linarith

theorem pyRound1_intCast (n : ℤ) : pyRound1 ((n : ℚ)) = (n : ℚ) := by
  have h10 : (10 : ℚ) * (n : ℚ) = ((10 * n : ℤ) : ℚ) := by push_cast; ring
  unfold pyRound1 roundHalfEven
  rw [h10, Int.floor_intCast]
  rw [if_pos (by norm_num)]
  push_cast
  field_simp

/-! ## Claim theorems -/

/-- C2: for every capability response, the DimensionResult returned by
`evaluate_dimension` has its score in [0,100]; on well-formed
(schema-conformant) responses the score is exactly
`max(0, min(100, score))`, so a returned score of 150 becomes 100 and -20
becomes 0 — clamped, never rejected. -/
theorem C2_theorem :
    (∀ resp : CapResponse,
      0 ≤ (evaluate_dimension resp).score ∧ (evaluate_dimension resp).score ≤ 100) ∧
    (∀ (raw : String) (fs : List (String × Json)) (q : ℚ) (a : String) (r : List Json),
      json_loads raw = some (Json.obj fs) →
      pyGet fs "score" = some (Json.num q) →
      pyGet fs "analysis" = some (Json.str a) →
      pyGet fs "recommendations" = some (Json.arr r) →
      (evaluate_dimension (CapResponse.ok raw)).score = max 0 (min 100 q)) ∧
    (evaluate_dimension (CapResponse.ok raw150)).score = 100 ∧
    (evaluate_dimension (CapResponse.ok rawNeg20)).score = 0 := by
  refine ⟨evalDim_score_bounds, ?_, by rfl, by rfl⟩
  intro raw fs q a r h1 h2 h3 h4
  simp [evaluate_dimension, h1, h2, h3, h4, scoreVal, pySliceOk, pyLenOk]

/-- Witness for C2: a concrete well-formed response with score 80 is
clamped (trivially) to `max 0 (min 100 80)`. -/
theorem C2_witness :
    (evaluate_dimension (CapResponse.ok dimRaw80)).score = max 0 (min 100 80) :=
  C2_theorem.2.1 dimRaw80
    [("score", Json.num 80), ("analysis", Json.str "ok"),
     ("recommendations", Json.arr [Json.str "r1", Json.str "r2"])]
    80 "ok" [Json.str "r1", Json.str "r2"] rfl rfl rfl rfl

/-- C3: `evaluate_dimension` never propagates a failure (it is a total
function into DimensionResult): a failed call, malformed JSON, and a
parsed object missing any of the three required fields all yield the
degraded result, whose score is 0, whose analysis embeds the error, and
whose recommendations list has exactly length 1. -/
theorem C3_theorem :
    (∀ m, evaluate_dimension (CapResponse.err m) = degradedResult m) ∧
    (∀ raw, json_loads raw = none →
      evaluate_dimension (CapResponse.ok raw) = degradedResult jsonErrorMsg) ∧
    (∀ (raw : String) (fs : List (String × Json)),
      json_loads raw = some (Json.obj fs) →
      (pyGet fs "score" = none ∨ pyGet fs "analysis" = none ∨
        pyGet fs "recommendations" = none) →
      evaluate_dimension (CapResponse.ok raw)
        = degradedResult "Invalid response structure from OpenAI") ∧
    (∀ m, (degradedResult m).score = 0 ∧
      (degradedResult m).analysis = Json.str ("Error evaluating this dimension: " ++ m) ∧
      (degradedResult m).recommendations
        = Json.arr [Json.str "Unable to generate recommendations due to an error."]) := by
  refine ⟨fun m => rfl, ?_, ?_, fun m => ⟨rfl, rfl, rfl⟩⟩
  · intro raw h
    simp [evaluate_dimension, h]
  · intro raw fs h1 h2
    rcases h2 with h2 | h2 | h2 <;>
      cases hs : pyGet fs "score" <;>
      cases ha : pyGet fs "analysis" <;>
      cases hr : pyGet fs "recommendations" <;>
      simp_all [evaluate_dimension]

/-- Witness for C3: the three failure modes at concrete inputs. -/
theorem C3_witness :
    evaluate_dimension (CapResponse.err "boom") = degradedResult "boom" ∧
    evaluate_dimension (CapResponse.ok "not json") = degradedResult jsonErrorMsg ∧
    evaluate_dimension (CapResponse.ok missingFieldRaw)
      = degradedResult "Invalid response structure from OpenAI" :=
  ⟨C3_theorem.1 "boom", C3_theorem.2.1 "not json" rfl,
   C3_theorem.2.2.1 missingFieldRaw [("score", Json.num 42)] rfl
     (Or.inr (Or.inl rfl))⟩

/-- C9: the fixed weight table maps the 9 fixed dimension names to 0.20,
0.15, 0.15, 0.10, 0.10, 0.08, 0.08, 0.09, 0.05 respectively, and the 9
weights sum to exactly 1. -/
theorem C9_theorem :
    (DIMENSION_WEIGHTS_LIST.map fun p => p.1) = DIMENSIONS ∧
    (DIMENSION_WEIGHTS_LIST.map fun p => p.2)
      = [0.20, 0.15, 0.15, 0.10, 0.10, 0.08, 0.08, 0.09, 0.05] ∧
    ((DIMENSION_WEIGHTS_LIST.map fun p => p.2).sum = 1) ∧
    DIMENSION_WEIGHTS_LIST.length = 9 := by
  refine ⟨rfl, rfl, ?_, rfl⟩
  norm_num [DIMENSION_WEIGHTS_LIST]

/-- C4: the overall score of every aggregate equals
`round(Σ score_i × weight_i, 1)` over exactly the 9 fixed dimensions, and
when all 9 dimension scores are 80 the overall score is 80.0. -/
theorem C4_theorem :
    (∀ caps : String → CapResponse,
      (evaluate_all_dimensions caps).overall_score
        = pyRound1 ((DIMENSIONS.map fun d =>
            (evaluate_dimension (caps d)).score * DIMENSION_WEIGHTS d).sum)) ∧
    DIMENSIONS.length = 9 ∧
    (evaluate_all_dimensions fun _ => CapResponse.ok dimRaw80).overall_score = 80 := by
  refine ⟨fun _ => rfl, rfl, ?_⟩
  have hsc : (evaluate_dimension (CapResponse.ok dimRaw80)).score = 80 := by
    rw [show (evaluate_dimension (CapResponse.ok dimRaw80)).score
        = max 0 (min 100 ((80 : ℕ) : ℚ)) from rfl]
    norm_num
  have hov : (evaluate_all_dimensions fun _ => CapResponse.ok dimRaw80).overall_score
      = pyRound1 ((DIMENSIONS.map fun d =>
          (evaluate_dimension (CapResponse.ok dimRaw80)).score
            * DIMENSION_WEIGHTS d).sum) := rfl
  have w1 : DIMENSION_WEIGHTS "Relevance of Experience" = 1 / 5 := by
    rw [show DIMENSION_WEIGHTS "Relevance of Experience" = (0.20 : ℚ) from rfl]
    norm_num
  have w2 : DIMENSION_WEIGHTS "Impact and Achievements" = 3 / 20 := by
    rw [show DIMENSION_WEIGHTS "Impact and Achievements" = (0.15 : ℚ) from rfl]
    norm_num
  have w3 : DIMENSION_WEIGHTS "Technical Proficiency" = 3 / 20 := by
    rw [show DIMENSION_WEIGHTS "Technical Proficiency" = (0.15 : ℚ) from rfl]
    norm_num
  have w4 : DIMENSION_WEIGHTS "Clarity and Structure" = 1 / 10 := by
    rw [show DIMENSION_WEIGHTS "Clarity and Structure" = (0.10 : ℚ) from rfl]
    norm_num
  have w5 : DIMENSION_WEIGHTS "Quantifiable Results" = 1 / 10 := by
    rw [show DIMENSION_WEIGHTS "Quantifiable Results" = (0.10 : ℚ) from rfl]
    norm_num
  have w6 : DIMENSION_WEIGHTS "Communication and Writing Quality" = 2 / 25 := by
    rw [show DIMENSION_WEIGHTS "Communication and Writing Quality" = (0.08 : ℚ) from rfl]
    norm_num
  have w7 : DIMENSION_WEIGHTS "Growth and Progression" = 2 / 25 := by
    rw [show DIMENSION_WEIGHTS "Growth and Progression" = (0.08 : ℚ) from rfl]
    norm_num
  have w8 : DIMENSION_WEIGHTS "Innovation and Problem-Solving" = 9 / 100 := by
    rw [show DIMENSION_WEIGHTS "Innovation and Problem-Solving" = (0.09 : ℚ) from rfl]
    norm_num
  have w9 : DIMENSION_WEIGHTS "ATS Compatibility" = 1 / 20 := by
    rw [show DIMENSION_WEIGHTS "ATS Compatibility" = (0.05 : ℚ) from rfl]
    norm_num
  have hsum : (DIMENSIONS.map fun d =>
      (evaluate_dimension (CapResponse.ok dimRaw80)).score
        * DIMENSION_WEIGHTS d).sum = ((80 : ℤ) : ℚ) := by
    simp only [DIMENSIONS, List.map_cons, List.map_nil, List.sum_cons, List.sum_nil]
    rw [hsc, w1, w2, w3, w4, w5, w6, w7, w8, w9]
    push_cast
    norm_num
  rw [hov, hsum, pyRound1_intCast]
  norm_num

/-- Witness for C4: the weighted-sum equation at a concrete behavior. -/
theorem C4_witness :
    (evaluate_all_dimensions fun _ => CapResponse.err "down").overall_score
      = pyRound1 ((DIMENSIONS.map fun d =>
          (evaluate_dimension ((fun _ => CapResponse.err "down") d)).score
            * DIMENSION_WEIGHTS d).sum) :=
  C4_theorem.1 fun _ => CapResponse.err "down"

/-- C10: for every behavior of the Completion Capability, the overall
score computed by `evaluate_all_dimensions` lies in [0, 100]. -/
theorem C10_theorem (caps : String → CapResponse) :
    0 ≤ (evaluate_all_dimensions caps).overall_score ∧
      (evaluate_all_dimensions caps).overall_score ≤ 100 := by
  have hov : (evaluate_all_dimensions caps).overall_score
      = pyRound1 ((DIMENSIONS.map fun d =>
          (evaluate_dimension (caps d)).score * DIMENSION_WEIGHTS d).sum) := rfl
  have w1 : DIMENSION_WEIGHTS "Relevance of Experience" = 1 / 5 := by
    rw [show DIMENSION_WEIGHTS "Relevance of Experience" = (0.20 : ℚ) from rfl]
    norm_num
  have w2 : DIMENSION_WEIGHTS "Impact and Achievements" = 3 / 20 := by
    rw [show DIMENSION_WEIGHTS "Impact and Achievements" = (0.15 : ℚ) from rfl]
    norm_num
  have w3 : DIMENSION_WEIGHTS "Technical Proficiency" = 3 / 20 := by
    rw [show DIMENSION_WEIGHTS "Technical Proficiency" = (0.15 : ℚ) from rfl]
    norm_num
  have w4 : DIMENSION_WEIGHTS "Clarity and Structure" = 1 / 10 := by
    rw [show DIMENSION_WEIGHTS "Clarity and Structure" = (0.10 : ℚ) from rfl]
    norm_num
  have w5 : DIMENSION_WEIGHTS "Quantifiable Results" = 1 / 10 := by
    rw [show DIMENSION_WEIGHTS "Quantifiable Results" = (0.10 : ℚ) from rfl]
    norm_num
  have w6 : DIMENSION_WEIGHTS "Communication and Writing Quality" = 2 / 25 := by
    rw [show DIMENSION_WEIGHTS "Communication and Writing Quality" = (0.08 : ℚ) from rfl]
    norm_num
  have w7 : DIMENSION_WEIGHTS "Growth and Progression" = 2 / 25 := by
    rw [show DIMENSION_WEIGHTS "Growth and Progression" = (0.08 : ℚ) from rfl]
    norm_num
  have w8 : DIMENSION_WEIGHTS "Innovation and Problem-Solving" = 9 / 100 := by
    rw [show DIMENSION_WEIGHTS "Innovation and Problem-Solving" = (0.09 : ℚ) from rfl]
    norm_num
  have w9 : DIMENSION_WEIGHTS "ATS Compatibility" = 1 / 20 := by
    rw [show DIMENSION_WEIGHTS "ATS Compatibility" = (0.05 : ℚ) from rfl]
    norm_num
  obtain ⟨a1, b1⟩ := evalDim_score_bounds (caps "Relevance of Experience")
  obtain ⟨a2, b2⟩ := evalDim_score_bounds (caps "Impact and Achievements")
  obtain ⟨a3, b3⟩ := evalDim_score_bounds (caps "Technical Proficiency")
  obtain ⟨a4, b4⟩ := evalDim_score_bounds (caps "Clarity and Structure")
  obtain ⟨a5, b5⟩ := evalDim_score_bounds (caps "Quantifiable Results")
  obtain ⟨a6, b6⟩ := evalDim_score_bounds (caps "Communication and Writing Quality")
  obtain ⟨a7, b7⟩ := evalDim_score_bounds (caps "Growth and Progression")
  obtain ⟨a8, b8⟩ := evalDim_score_bounds (caps "Innovation and Problem-Solving")
  obtain ⟨a9, b9⟩ := evalDim_score_bounds (caps "ATS Compatibility")
  have hsum0 :
      0 ≤ (DIMENSIONS.map fun d =>
        (evaluate_dimension (caps d)).score * DIMENSION_WEIGHTS d).sum ∧
      (DIMENSIONS.map fun d =>
        (evaluate_dimension (caps d)).score * DIMENSION_WEIGHTS d).sum ≤ 100 := by
    simp only [DIMENSIONS, List.map_cons, List.map_nil, List.sum_cons, List.sum_nil]
    rw [w1, w2, w3, w4, w5, w6, w7, w8, w9]
    constructor <;> linarith
  rw [hov]
  exact pyRound1_bounds hsum0.1 hsum0.2

/-- Witness for C10: the bounds at a concrete behavior. -/
theorem C10_witness :
    0 ≤ (evaluate_all_dimensions fun _ => CapResponse.ok "garbage").overall_score ∧
      (evaluate_all_dimensions fun _ => CapResponse.ok "garbage").overall_score ≤ 100 :=
  C10_theorem fun _ => CapResponse.ok "garbage"

/-- C5 counterexample: on an aggregate whose single weak dimension has an
empty recommendations list, the three generic strings are emitted even
though one dimension scores below 70 (refuting the fallback emitted
precisely when zero dimensions score below 70); and on an aggregate whose
weak dimension carries a truthy dict as recommendations, the method
raises (refuting that it never fails). -/
theorem C5_counterexample :
    generate_overall_recommendations aggWeakEmptyRecs
      = Except.ok fallbackRecommendations ∧
    (aggWeakEmptyRecs.filter fun p => p.2.score < 70).length = 1 ∧
    generate_overall_recommendations aggWeakDictRecs
      = Except.error "recommendations value is not indexable at 0" :=
  ⟨by rfl, by rfl, by rfl⟩

theorem collectRecs_ok (l : List (String × DimResult))
    (h : ∀ p ∈ l, pyTruthy p.2.recommendations = true →
      (pyIndex0 p.2.recommendations).isSome = true) :
    collectRecs l = Except.ok (l.filterMap emitOpt) := by
  induction l with
  | nil => rfl
  | cons p rest ih =>
    have hp := h p (List.mem_cons_self p rest)
    have hrest := ih fun x hx => h x (List.mem_cons_of_mem p hx)
    by_cases ht : pyTruthy p.2.recommendations = true
    · obtain ⟨r, hr⟩ := Option.isSome_iff_exists.mp (hp ht)
      simp [collectRecs, emitOne, emitOpt, ht, hr, hrest, Except.map]
    · rw [Bool.not_eq_true] at ht
      simp [collectRecs, emitOne, emitOpt, ht, hrest]

/-- C5 amended: `generate_overall_recommendations` selects the dimension
entries (excluding the two aggregate keys) with score below 70, sorted
ascending by score with ties in original order, takes the first 3, and
emits one formatted string per selected dimension with a truthy indexable
recommendations value, skipping (not replacing) empty ones; the 3 fixed
generic strings are emitted exactly when no selected dimension
contributes; it returns without failing whenever every selected truthy
recommendations value is indexable at 0. -/
theorem C5_amended (agg : List (String × DimResult))
    (h : ∀ p ∈ selectedWeak agg, pyTruthy p.2.recommendations = true →
      (pyIndex0 p.2.recommendations).isSome = true) :
    generate_overall_recommendations agg
      = Except.ok
          (if ((selectedWeak agg).filterMap emitOpt).isEmpty
           then fallbackRecommendations
           else (selectedWeak agg).filterMap emitOpt) := by
  unfold generate_overall_recommendations
  rw [collectRecs_ok _ h]
  rfl

/-- Witness for C5: the amended statement at a concrete aggregate with two
weak dimensions. -/
theorem C5_witness :
    generate_overall_recommendations aggTwoWeak
      = Except.ok
          (if ((selectedWeak aggTwoWeak).filterMap emitOpt).isEmpty
           then fallbackRecommendations
           else (selectedWeak aggTwoWeak).filterMap emitOpt) :=
  C5_amended aggTwoWeak (by decide)

/-- C7 counterexample: the response `[1]` parses as a bare JSON array, yet
`extract_overlapping_skills` returns the empty sequence rather than that
array (the eagerly formatted success log joins the first elements, which
raises on a non-string, and the error path returns `[]`). -/
theorem C7_counterexample :
    json_loads "[1]" = some (Json.arr [Json.num 1]) ∧
    extract_overlapping_skills (CapResponse.ok "[1]") = Json.arr [] ∧
    Json.arr [Json.num 1] ≠ Json.arr [] :=
  ⟨rfl, rfl, by simp⟩

/-- C7 amended: `extract_overlapping_skills` accepts, in order, a bare
JSON array, an object with key `skills`, an object with key
`overlapping_skills`, or — as a last resort — the first value in the
object that is itself an array, returning the empty sequence when the
object has no array-valued entry; on any failure — call error, parse
error, non-object non-array response, or the success-path logging raising
on an extracted value that is not a string and not an array whose first 10
elements are all strings — it returns the empty sequence and never
propagates the error. -/
theorem C7_amended :
    (∀ m, extract_overlapping_skills (CapResponse.err m) = Json.arr []) ∧
    (∀ raw, json_loads raw = none →
      extract_overlapping_skills (CapResponse.ok raw) = Json.arr []) ∧
    (∀ (raw : String) (xs : List Json), json_loads raw = some (Json.arr xs) →
      (xs.take 10).all isStrB = true →
      extract_overlapping_skills (CapResponse.ok raw) = Json.arr xs) ∧
    (∀ (raw : String) (fs : List (String × Json)) (v : Json),
      json_loads raw = some (Json.obj fs) → pyGet fs "skills" = some v →
      extract_overlapping_skills (CapResponse.ok raw)
        = if skillsLogOk v then v else Json.arr []) ∧
    (∀ (raw : String) (fs : List (String × Json)) (v : Json),
      json_loads raw = some (Json.obj fs) → pyGet fs "skills" = none →
      pyGet fs "overlapping_skills" = some v →
      extract_overlapping_skills (CapResponse.ok raw)
        = if skillsLogOk v then v else Json.arr []) ∧
    (∀ (raw : String) (fs : List (String × Json)) (v : Json),
      json_loads raw = some (Json.obj fs) → pyGet fs "skills" = none →
      pyGet fs "overlapping_skills" = none →
      (fs.map fun p => p.2).find? isArrB = some v →
      extract_overlapping_skills (CapResponse.ok raw)
        = if skillsLogOk v then v else Json.arr []) ∧
    (∀ (raw : String) (fs : List (String × Json)),
      json_loads raw = some (Json.obj fs) → pyGet fs "skills" = none →
      pyGet fs "overlapping_skills" = none →
      (fs.map fun p => p.2).find? isArrB = none →
      extract_overlapping_skills (CapResponse.ok raw) = Json.arr []) ∧
    (∀ (raw : String) (q : ℚ), json_loads raw = some (Json.num q) →
      extract_overlapping_skills (CapResponse.ok raw) = Json.arr []) ∧
    extract_overlapping_skills
        (CapResponse.ok "\x7b\"skills\": [\"Python\",\"AWS\"]\x7d")
      = Json.arr [Json.str "Python", Json.str "AWS"] := by
  refine ⟨fun m => rfl, ?_, ?_, ?_, ?_, ?_, ?_, ?_, by rfl⟩
  · intro raw h
    simp [extract_overlapping_skills, h]
  · intro raw xs h hall
    simp [extract_overlapping_skills, h, extractSkillsValue, skillsLogOk,
      pyLenOk, hall]
  · intro raw fs v h1 h2
    simp [extract_overlapping_skills, h1, extractSkillsValue, h2]
  · intro raw fs v h1 h2 h3
    simp [extract_overlapping_skills, h1, extractSkillsValue, h2, h3]
  · intro raw fs v h1 h2 h3 h4
    simp [extract_overlapping_skills, h1, extractSkillsValue, h2, h3, h4]
  · intro raw fs h1 h2 h3 h4
    simp [extract_overlapping_skills, h1, extractSkillsValue, h2, h3, h4,
      skillsLogOk, pyLenOk, pyTruthy]
  · intro raw q h
    simp [extract_overlapping_skills, h, extractSkillsValue]

/-- Witness for C7: the `skills`-key shape at the concrete response of the
claim, and the last-resort shape at an object with neither skills key. -/
theorem C7_witness :
    (extract_overlapping_skills
        (CapResponse.ok "\x7b\"skills\": [\"Python\",\"AWS\"]\x7d")
      = if skillsLogOk (Json.arr [Json.str "Python", Json.str "AWS"])
        then Json.arr [Json.str "Python", Json.str "AWS"] else Json.arr []) ∧
    (extract_overlapping_skills
        (CapResponse.ok "\x7b\"other\": 1, \"vals\": [\"X\"]\x7d")
      = if skillsLogOk (Json.arr [Json.str "X"])
        then Json.arr [Json.str "X"] else Json.arr []) :=
  ⟨C7_amended.2.2.2.1 "\x7b\"skills\": [\"Python\",\"AWS\"]\x7d"
    [("skills", Json.arr [Json.str "Python", Json.str "AWS"])]
    (Json.arr [Json.str "Python", Json.str "AWS"]) rfl rfl,
   C7_amended.2.2.2.2.2.1 "\x7b\"other\": 1, \"vals\": [\"X\"]\x7d"
    [("other", Json.num 1), ("vals", Json.arr [Json.str "X"])]
    (Json.arr [Json.str "X"]) rfl rfl rfl rfl⟩

/-- C8 counterexample: a summary call that succeeds with an all-whitespace
completion yields an empty executive summary — both for the operation
itself and for the field of the report `analyze_resume` returns — refuting
that the executiveSummary of every report is non-empty for every behavior
of the capability. -/
theorem C8_counterexample :
    generate_executive_summary (CapResponse.ok "  ") 50 = "" ∧
    (analyze_resume blankSummaryBehavior).map (fun r => r.executive_summary)
      = Except.ok "" :=
  ⟨rfl, rfl⟩

/-- C8 amended: `generate_executive_summary` never propagates a failure:
on a failed call it returns the fixed templated sentence embedding the
overall score, which is never empty; on a successful call it returns the
stripped completion (empty exactly when the completion is all
whitespace); and the executiveSummary field of every returned report is
exactly this operation's value on the run's summary invocation. -/
theorem C8_amended :
    (∀ (m : String) (q : ℚ),
      generate_executive_summary (CapResponse.err m) q = fallbackSummary q) ∧
    (∀ q : ℚ, fallbackSummary q ≠ "") ∧
    (∀ (raw : String) (q : ℚ),
      generate_executive_summary (CapResponse.ok raw) q = pyStrip raw) ∧
    (∀ (c : CapBehavior) (r : Report), analyze_resume c = Except.ok r →
      r.executive_summary
        = generate_executive_summary c.summary
            (evaluate_all_dimensions c.dims).overall_score) := by
  refine ⟨fun m q => rfl, ?_, fun raw q => rfl, ?_⟩
  · intro q h
    have hl := congrArg String.length h
    simp only [fallbackSummary, String.length_append] at hl
    have h1 : ("This resume shows a " : String).length = 20 := rfl
    have h0 : ("" : String).length = 0 := rfl
    omega
  · intro c r h
    simp only [analyze_resume] at h
    cases hg : generate_overall_recommendations (evaluate_all_dimensions c.dims).dims with
    | error e =>
      rw [hg] at h
      exact Except.noConfusion h
    | ok recs =>
      rw [hg] at h
      injection h with h2
      subst h2
      rfl

/-- Witness for C8: the fallback at a failed summary call, its
non-emptiness, the stripping of a successful call, and the report field of
a concrete run. -/
theorem C8_witness :
    generate_executive_summary (CapResponse.err "boom") 55 = fallbackSummary 55 ∧
    fallbackSummary 55 ≠ "" ∧
    generate_executive_summary (CapResponse.ok " great ") 55 = pyStrip " great " ∧
    happyReport.executive_summary
      = generate_executive_summary happyBehavior.summary
          (evaluate_all_dimensions happyBehavior.dims).overall_score :=
  ⟨C8_amended.1 "boom" 55, C8_amended.2.1 55, C8_amended.2.2.1 " great " 55,
   C8_amended.2.2.2 happyBehavior happyReport rfl⟩

/-- C6: every report returned by `analyze_resume` is fully shaped: its
dimensions mapping has exactly the 9 fixed dimension names as keys, each
bound to the DimensionResult of that dimension's evaluation (degraded or
not), its weight table is the fixed constant, and its remaining fields
carry the values of the corresponding pipeline steps — never a
partially-shaped report. -/
theorem C6_theorem (c : CapBehavior) (r : Report)
    (h : analyze_resume c = Except.ok r) :
    r.dimensions = (DIMENSIONS.map fun d => (d, evaluate_dimension (c.dims d))) ∧
    (r.dimensions.map fun p => p.1) = DIMENSIONS ∧
    r.dimension_weights = DIMENSION_WEIGHTS_LIST ∧
    r.overall_score = (evaluate_all_dimensions c.dims).overall_score ∧
    r.overlapping_skills = extract_overlapping_skills c.skills ∧
    r.skill_gaps = identify_skill_gaps c.gaps := by
  simp only [analyze_resume] at h
  cases hg : generate_overall_recommendations (evaluate_all_dimensions c.dims).dims with
  | error e =>
    rw [hg] at h
    exact Except.noConfusion h
  | ok recs =>
    rw [hg] at h
    injection h with h2
    subst h2
    refine ⟨rfl, ?_, rfl, rfl, rfl, rfl⟩
    rfl

/-- Witness for C6: the shape facts at the report of a concrete fully
successful run. -/
theorem C6_witness :
    happyReport.dimensions
      = (DIMENSIONS.map fun d => (d, evaluate_dimension (happyBehavior.dims d))) ∧
    (happyReport.dimensions.map fun p => p.1) = DIMENSIONS ∧
    happyReport.dimension_weights = DIMENSION_WEIGHTS_LIST ∧
    happyReport.overall_score
      = (evaluate_all_dimensions happyBehavior.dims).overall_score ∧
    happyReport.overlapping_skills = extract_overlapping_skills happyBehavior.skills ∧
    happyReport.skill_gaps = identify_skill_gaps happyBehavior.gaps :=
  C6_theorem happyBehavior happyReport rfl

/-- C1 counterexample: under a systemic outage in which every Completion
Capability invocation fails, `analyze_resume` does not surface a failure:
it returns a normal-shaped report whose overall score is 0, refuting the
claimed intentional asymmetry. -/
theorem C1_counterexample :
    analyze_resume outageBehavior = Except.ok outageReport ∧
    outageReport.overall_score = 0 := by
  constructor
  · rfl
  · have hov : outageReport.overall_score
        = pyRound1 ((DIMENSIONS.map fun d =>
            (evaluate_dimension (outageBehavior.dims d)).score
              * DIMENSION_WEIGHTS d).sum) := rfl
    have hz : ∀ d, (evaluate_dimension (outageBehavior.dims d)).score = 0 :=
      fun d => rfl
    have hsum : (DIMENSIONS.map fun d =>
        (evaluate_dimension (outageBehavior.dims d)).score
          * DIMENSION_WEIGHTS d).sum = ((0 : ℤ) : ℚ) := by
      simp only [DIMENSIONS, List.map_cons, List.map_nil, List.sum_cons,
        List.sum_nil, hz, zero_mul, add_zero]
      norm_num
    rw [hov, hsum, pyRound1_intCast]
    norm_num

/-- C1 amended: for every run in which the Completion Capability fails on
every invocation, `analyze_resume` does NOT fail — every sub-step catches
its own capability failure, so the caller receives a normal-shaped report
with overall score 0 (the all-zero report) instead of a failure signal. -/
theorem C1_theorem (m1 m2 m3 : String) (k : String → String) :
    analyze_resume
        { skills := CapResponse.err m1, gaps := CapResponse.err m2,
          dims := fun d => CapResponse.err (k d),
          summary := CapResponse.err m3 }
      = Except.ok (outageLikeReport m1 m2 m3 k) ∧
    (outageLikeReport m1 m2 m3 k).overall_score = 0 := by
  constructor
  · rfl
  · have hov : (outageLikeReport m1 m2 m3 k).overall_score
        = pyRound1 ((DIMENSIONS.map fun d =>
            (evaluate_dimension (CapResponse.err (k d))).score
              * DIMENSION_WEIGHTS d).sum) := rfl
    have hz : ∀ d, (evaluate_dimension (CapResponse.err (k d))).score = 0 :=
      fun d => rfl
    have hsum : (DIMENSIONS.map fun d =>
        (evaluate_dimension (CapResponse.err (k d))).score
          * DIMENSION_WEIGHTS d).sum = ((0 : ℤ) : ℚ) := by
      simp only [DIMENSIONS, List.map_cons, List.map_nil, List.sum_cons,
        List.sum_nil, hz, zero_mul, add_zero]
      norm_num
    rw [hov, hsum, pyRound1_intCast]
    norm_num

/-- Witness for C1: the amended statement at concrete error messages. -/
theorem C1_witness :
    analyze_resume
        { skills := CapResponse.err "E1", gaps := CapResponse.err "E2",
          dims := fun _ => CapResponse.err "E3",
          summary := CapResponse.err "E4" }
      = Except.ok (outageLikeReport "E1" "E2" "E4" fun _ => "E3") ∧
    (outageLikeReport "E1" "E2" "E4" fun _ => "E3").overall_score = 0 :=
  C1_theorem "E1" "E2" "E4" fun _ => "E3"

end ResumeCreator
